import Mathlib

/-!
Verification of the vaul-svelte drawer logic.

The development shallowly embeds the logic of `root.svelte` (the Svelte
wrapper component, the `createVaul` gesture machinery and the
`usePositionFixed` body-lock helper).  Pixel quantities, timestamps and
velocities are modelled as rationals (the release/drag decision logic is
pure arithmetic comparison, so `ℚ` keeps everything executable); the
dampening curve uses `Real.log` since the source uses `Math.log`.
-/

namespace Vaul

/-- `dampenValue` from `root.svelte`:
`export function dampenValue(v) { return 8 * (Math.log(v + 1) - 2); }` -/
noncomputable def dampenValue (v : ℝ) : ℝ :=
  8 * (Real.log (v + 1) - 2)

/-- C1 counterexample: the claimed universal sub-linearity
`dampenValue v2 - dampenValue v1 < v2 - v1` for all `0 ≤ v1 < v2` fails at
`v1 = 0`, `v2 = 1`: there `dampenValue 1 - dampenValue 0 = 8 * log 2 ≈ 5.5`,
which is not `< 1`. -/
theorem dampenValue_sublinear_fails_at_zero_one :
    ¬ (dampenValue 1 - dampenValue 0 < 1 - 0) := by
  unfold dampenValue
  have h1 : (1 : ℝ) + 1 = 2 := by norm_num
  have h0 : (0 : ℝ) + 1 = 1 := by norm_num
  rw [h1, h0, Real.log_one]
  push_neg
  nlinarith [Real.log_two_gt_d9]

/-- C1 (amended): `dampenValue` computes `8 * (ln (v + 1) - 2)`; it is
strictly monotone on `v ≥ 0`; and it grows strictly slower than the
identity for large `v` — here, for all `7 ≤ v1 < v2`,
`dampenValue v2 - dampenValue v1 < v2 - v1` (the derivative `8 / (v + 1)`
drops below `1` exactly at `v = 7`, so the sub-linearity of increments
holds from there on, not for all `v1 ≥ 0`). -/
theorem dampenValue_monotone_and_sublinear_beyond_seven (v1 v2 : ℝ)
    (h0 : 0 ≤ v1) (h12 : v1 < v2) :
    (∀ v : ℝ, dampenValue v = 8 * (Real.log (v + 1) - 2)) ∧
    dampenValue v1 < dampenValue v2 ∧
    (7 ≤ v1 → dampenValue v2 - dampenValue v1 < v2 - v1) := by
  have hv1 : (0 : ℝ) < v1 + 1 := by linarith
  have hv2 : (0 : ℝ) < v2 + 1 := by linarith
  have hlog : Real.log (v1 + 1) < Real.log (v2 + 1) :=
    Real.log_lt_log hv1 (by linarith)
  refine ⟨fun v => rfl, ?_, ?_⟩
  · unfold dampenValue
    linarith
  · intro h7
    unfold dampenValue
    have hx1 : (1 : ℝ) < (v2 + 1) / (v1 + 1) := (one_lt_div hv1).mpr (by linarith)
    have hx := Real.log_lt_sub_one_of_pos
      (show (0 : ℝ) < (v2 + 1) / (v1 + 1) by positivity) (ne_of_gt hx1)
    rw [Real.log_div (ne_of_gt hv2) (ne_of_gt hv1)] at hx
    have hmul := mul_lt_mul_of_pos_left hx hv1
    have he : (v1 + 1) * ((v2 + 1) / (v1 + 1) - 1) = v2 - v1 := by
      field_simp
    rw [he] at hmul
    have hL : (0 : ℝ) < Real.log (v2 + 1) - Real.log (v1 + 1) := by linarith
    nlinarith [mul_nonneg (show (0 : ℝ) ≤ v1 + 1 - 8 by linarith) (le_of_lt hL)]

/-- C1 witness: the amended theorem instantiated at `v1 = 7`, `v2 = 8`. -/
theorem dampenValue_monotone_and_sublinear_beyond_seven_witness :
    dampenValue 7 < dampenValue 8 ∧ dampenValue 8 - dampenValue 7 < 8 - 7 :=
  ⟨(dampenValue_monotone_and_sublinear_beyond_seven 7 8 (by norm_num) (by norm_num)).2.1,
   (dampenValue_monotone_and_sublinear_beyond_seven 7 8 (by norm_num) (by norm_num)).2.2
     (by norm_num)⟩

/-! ## The release decision (`onRelease` in `createVaul`)

`onRelease` reads the drag bookkeeping stores and the DOM (the drawer's
current `translateY`, the event target, timestamps) and decides between
doing nothing, delegating to the snap-point engine, resetting the drawer
to open, or closing it.  `ReleaseState` packages exactly the values the
source reads; the DOM reads (`getTranslateY`, `shouldDrag` on the event
target, element presence) become fields holding the value the read would
return. -/

/-- Outcome of `onRelease`: early return (`noop`), delegation to
`onReleaseSnapPoints` (`snap`), `resetDrawer` (`reset`), or `closeDrawer`
(`close`). -/
inductive ReleaseOutcome where
  | noop
  | snap
  | reset
  | close
deriving DecidableEq, Repr

/-- The values `onRelease` reads.  `velocityThreshold` stands for
`VELOCITY_THRESHOLD`.  Modelled from the spec: `VELOCITY_THRESHOLD` is
imported from `constants.js`, which is not among the sources; the spec
fixes no numeric value ("a fixed high-velocity threshold"), so the
constant is carried as a field and the theorems are parametric in it.
`swipeIsNaN` models `Number.isNaN(swipeAmount)` (a `NaN` read of the
drawer's `translateY`), which `ℚ` cannot represent directly. -/
structure ReleaseState where
  isDragging : Bool
  hasDrawerRef : Bool
  targetPresent : Bool
  shouldDragResult : Bool
  swipeAmount : ℚ
  swipeIsNaN : Bool
  dragStartTime : Option ℚ
  dragEndTime : ℚ
  pointerStartY : ℚ
  releaseScreenY : ℚ
  hasSnapPoints : Bool
  velocityThreshold : ℚ
  drawerHeight : ℚ
  innerHeight : ℚ
  closeThreshold : ℚ
deriving DecidableEq, Repr

/-- `distMoved = get(pointerStartY) - event.screenY`. -/
def distMoved (s : ReleaseState) : ℚ := s.pointerStartY - s.releaseScreenY

/-- `timeTaken = dragEndTime.getTime() - dragStartTime.getTime()`. -/
def timeTaken (s : ReleaseState) (t0 : ℚ) : ℚ := s.dragEndTime - t0

/-- `velocity = Math.abs(distMoved) / timeTaken`. -/
def velocity (s : ReleaseState) (t0 : ℚ) : ℚ := |distMoved s| / timeTaken s t0

/-- Shallow embedding of `onRelease` from `createVaul`.  The guard
structure mirrors the source line by line: the `isDragging`/`drawerRef`
early return; the
`(event.target && !shouldDrag(event.target, false)) || !swipeAmount ||
Number.isNaN(swipeAmount)` early return (in JS `!swipeAmount` is true
exactly for `0` and `NaN`); the `dragStartTime === null` early return;
then snap-point delegation, the moved-upwards reset, the velocity
override, and the close-threshold comparison against
`Math.min(drawerHeight, window.innerHeight) * closeThreshold`. -/
def onRelease (s : ReleaseState) : ReleaseOutcome :=
  if ¬ (s.isDragging = true ∧ s.hasDrawerRef = true) then .noop
  else if (s.targetPresent = true ∧ s.shouldDragResult = false)
      ∨ s.swipeAmount = 0 ∨ s.swipeIsNaN = true then .noop
  else
    match s.dragStartTime with
    | none => .noop
    | some t0 =>
      if s.hasSnapPoints = true then .snap
      else if 0 < distMoved s then .reset
      else if s.velocityThreshold < velocity s t0 then .close
      else if min s.drawerHeight s.innerHeight * s.closeThreshold ≤ s.swipeAmount then .close
      else .reset

/-- The `open` flag `onRelease` reports to the `onRelease` callback prop:
`true` on the snap-point and reset paths, `false` on the close paths,
nothing on the early returns. -/
def reportedOpen : ReleaseOutcome → Option Bool
  | .noop => none
  | .snap => some true
  | .reset => some true
  | .close => some false

/-- C2: with no snap points configured, a released downward (toward-close)
drag whose velocity `|distMoved| / timeTaken` exceeds `VELOCITY_THRESHOLD`
closes the drawer — whatever the distance dragged — and reports
`open = false` to the `onRelease` callback. -/
theorem onRelease_velocity_override (s : ReleaseState) (t0 : ℚ)
    (hDrag : s.isDragging = true) (hRef : s.hasDrawerRef = true)
    (hShould : s.shouldDragResult = true)
    (hSwipe : s.swipeAmount ≠ 0) (hNaN : s.swipeIsNaN = false)
    (hT : s.dragStartTime = some t0)
    (hSnap : s.hasSnapPoints = false)
    (hDown : distMoved s < 0)
    (hVel : s.velocityThreshold < velocity s t0) :
    onRelease s = .close ∧ reportedOpen (onRelease s) = some false := by
  have hNotUp : ¬ (0 < distMoved s) := by linarith
  simp [onRelease, hDrag, hRef, hShould, hSwipe, hNaN, hT, hSnap, hNotUp, hVel,
    reportedOpen]

/-- C2 witness: a 1px downward drag (`pointerStartY = 0`,
`releaseScreenY = 1`, so `distMoved = -1` and `swipeAmount = 1`) released
after 2ms, giving velocity `1/2` above a threshold of `2/5`. -/
def releaseFlickExample : ReleaseState :=
  { isDragging := true, hasDrawerRef := true, targetPresent := true,
    shouldDragResult := true, swipeAmount := 1, swipeIsNaN := false,
    dragStartTime := some 0, dragEndTime := 2, pointerStartY := 0,
    releaseScreenY := 1, hasSnapPoints := false, velocityThreshold := 2/5,
    drawerHeight := 400, innerHeight := 800, closeThreshold := 1/4 }

/-- C2 witness: the velocity override applied to the concrete 1px flick. -/
theorem onRelease_velocity_override_witness :
    onRelease releaseFlickExample = .close ∧
    reportedOpen (onRelease releaseFlickExample) = some false :=
  onRelease_velocity_override releaseFlickExample 0 (by decide) (by decide)
    (by decide) (by decide) (by decide) (by decide) (by decide)
    (by norm_num [distMoved, releaseFlickExample])
    (by norm_num [velocity, distMoved, timeTaken, releaseFlickExample])

/-- C3: with `closeThreshold = 1/4`, no snap points, a drawer 400px tall
(and a viewport at least that tall, so the visible height is 400px), a
released downward drag below the velocity threshold closes when the swipe
distance reaches 100px = `400 * 1/4` and resets back to open at 99px. -/
theorem onRelease_close_threshold_400 (s : ReleaseState) (t0 : ℚ)
    (hDrag : s.isDragging = true) (hRef : s.hasDrawerRef = true)
    (hShould : s.shouldDragResult = true) (hNaN : s.swipeIsNaN = false)
    (hT : s.dragStartTime = some t0)
    (hSnap : s.hasSnapPoints = false)
    (hDown : distMoved s < 0)
    (hVel : velocity s t0 < s.velocityThreshold)
    (hCT : s.closeThreshold = 1/4)
    (hH : s.drawerHeight = 400) (hIH : 400 ≤ s.innerHeight) :
    (100 ≤ s.swipeAmount → onRelease s = .close) ∧
    (s.swipeAmount = 99 → onRelease s = .reset) := by
  have hNotUp : ¬ (0 < distMoved s) := by linarith
  have hNotVel : ¬ (s.velocityThreshold < velocity s t0) := by linarith
  have hMin : min s.drawerHeight s.innerHeight * s.closeThreshold = 100 := by
    rw [hH, hCT, min_eq_left hIH]
    norm_num
  constructor
  · intro hBig
    have hSwipe : s.swipeAmount ≠ 0 := by
      intro h0
      rw [h0] at hBig
      norm_num at hBig
    simp [onRelease, hDrag, hRef, hShould, hSwipe, hNaN, hT, hSnap, hNotUp,
      hNotVel, hMin, hBig]
  · intro h99
    have hSwipe : s.swipeAmount ≠ 0 := by
      rw [h99]
      norm_num
    have hSmall : ¬ (min s.drawerHeight s.innerHeight * s.closeThreshold ≤ s.swipeAmount) := by
      rw [hMin, h99]
      norm_num
    simp [onRelease, hDrag, hRef, hShould, hSwipe, hNaN, hT, hSnap, hNotUp,
      hNotVel, hSmall]

/-- C3 witness (close side): a 100px downward drag on a 400px drawer,
released after 1000ms (velocity `1/10`, below the threshold `2/5`). -/
def releaseThresholdCloseExample : ReleaseState :=
  { isDragging := true, hasDrawerRef := true, targetPresent := true,
    shouldDragResult := true, swipeAmount := 100, swipeIsNaN := false,
    dragStartTime := some 0, dragEndTime := 1000, pointerStartY := 0,
    releaseScreenY := 100, hasSnapPoints := false, velocityThreshold := 2/5,
    drawerHeight := 400, innerHeight := 800, closeThreshold := 1/4 }

/-- C3 witness (reset side): the same gesture stopped at 99px. -/
def releaseThresholdResetExample : ReleaseState :=
  { releaseThresholdCloseExample with swipeAmount := 99, releaseScreenY := 99 }

/-- C3 witness: the threshold theorem applied to the concrete 100px and
99px drags. -/
theorem onRelease_close_threshold_400_witness :
    onRelease releaseThresholdCloseExample = .close ∧
    onRelease releaseThresholdResetExample = .reset :=
  ⟨(onRelease_close_threshold_400 releaseThresholdCloseExample 0 (by decide)
      (by decide) (by decide) (by decide) (by decide) (by decide)
      (by norm_num [distMoved, releaseThresholdCloseExample])
      (by norm_num [velocity, distMoved, timeTaken, releaseThresholdCloseExample])
      (by norm_num [releaseThresholdCloseExample]) (by decide)
      (by norm_num [releaseThresholdCloseExample])).1
      (by norm_num [releaseThresholdCloseExample]),
   (onRelease_close_threshold_400 releaseThresholdResetExample 0 (by decide)
      (by decide) (by decide) (by decide) (by decide) (by decide)
      (by norm_num [distMoved, releaseThresholdResetExample,
        releaseThresholdCloseExample])
      (by norm_num [velocity, distMoved, timeTaken,
        releaseThresholdResetExample, releaseThresholdCloseExample])
      (by norm_num [releaseThresholdResetExample, releaseThresholdCloseExample])
      (by decide)
      (by norm_num [releaseThresholdResetExample, releaseThresholdCloseExample])).2
      (by norm_num [releaseThresholdResetExample, releaseThresholdCloseExample])⟩

/-- C4 counterexample configuration: the drawer sits 150px down
(`swipeAmount = 150`) but the pointer released exactly where it started
(`pointerStartY = releaseScreenY = 5`), so `distMoved = 0` and the
computed velocity is `0 / 100 = 0`. -/
def releaseZeroVelocityExample : ReleaseState :=
  { isDragging := true, hasDrawerRef := true, targetPresent := true,
    shouldDragResult := true, swipeAmount := 150, swipeIsNaN := false,
    dragStartTime := some 0, dragEndTime := 100, pointerStartY := 5,
    releaseScreenY := 5, hasSnapPoints := false, velocityThreshold := 2/5,
    drawerHeight := 400, innerHeight := 800, closeThreshold := 1/4 }

/-- C4 counterexample: a release whose computed velocity is zero does
*not* make `onRelease` exit — the handler only guards on the swipe
distance, so with velocity `0` and a 150px translate on a 400px drawer it
goes on to close the drawer (150 ≥ 400 · 1/4). -/
theorem onRelease_zero_velocity_still_closes :
    velocity releaseZeroVelocityExample 0 = 0 ∧
    onRelease releaseZeroVelocityExample = .close := by
  constructor
  · norm_num [velocity, distMoved, timeTaken, releaseZeroVelocityExample]
  · norm_num [onRelease, velocity, distMoved, timeTaken,
      releaseZeroVelocityExample]

/-- C4 (amended): if the measured swipe distance (the drawer's current
`translateY`) is zero or `NaN`, `onRelease` exits without closing,
snapping or resetting, and reports nothing to the callback; the computed
velocity is not itself checked for degeneracy. -/
theorem onRelease_noop_of_degenerate_swipe (s : ReleaseState)
    (h : s.swipeAmount = 0 ∨ s.swipeIsNaN = true) :
    onRelease s = .noop ∧ reportedOpen (onRelease s) = none := by
  have : onRelease s = .noop := by
    unfold onRelease
    rcases h with h | h <;>
      · split
        · rfl
        · rw [if_pos (by tauto)]
  exact ⟨this, by rw [this]; rfl⟩

/-- C4 witness input: a release where the drawer's translate reads zero. -/
def releaseZeroSwipeExample : ReleaseState :=
  { releaseZeroVelocityExample with swipeAmount := 0 }

/-- C4 witness: the amended no-op theorem at the concrete zero-swipe
release. -/
theorem onRelease_noop_of_degenerate_swipe_witness :
    onRelease releaseZeroSwipeExample = .noop ∧
    reportedOpen (onRelease releaseZeroSwipeExample) = none :=
  onRelease_noop_of_degenerate_swipe releaseZeroSwipeExample (Or.inl (by decide))

/-! ## Gesture flags (`onPress` / `onDrag` / `onRelease`)

For the stickiness invariant of `isAllowedToDrag` only the two booleans
`isDragging` and `isAllowedToDrag` matter; the remaining reads of a
pointer-move handler (the snap-point/dismissible guard, the `shouldDrag`
permission test on the event target, the drawer-element presence) are
inputs of each event. -/

/-- The two drag flags the handlers mutate. -/
structure GestureFlags where
  isDragging : Bool
  isAllowedToDrag : Bool
deriving DecidableEq, Repr

/-- The environment of one pointer-move: whether
`snapPoints && activeSnapPointIndex === 0 && !dismissible` holds
(`snapGuard`), the result of `shouldDrag(event.target, isDraggingDown)`,
and whether `drawerRef` is mounted. -/
structure MoveEvent where
  snapGuard : Bool
  shouldDragResult : Bool
  hasDrawerRef : Bool
deriving DecidableEq, Repr

/-- The environment of `onPress`: the `dismissible`/`snapPoints` guard and
whether the press target is inside the drawer. -/
structure PressEvent where
  dismissible : Bool
  hasSnapPoints : Bool
  targetInDrawer : Bool
deriving DecidableEq, Repr

/-- Flag effect of `onPress`: after its two early returns it sets
`isDragging := true`; it never touches `isAllowedToDrag`. -/
def onPressFlags (e : PressEvent) (s : GestureFlags) : GestureFlags :=
  if e.dismissible = false ∧ e.hasSnapPoints = false then s
  else if e.targetInDrawer = false then s
  else { s with isDragging := true }

/-- Flag effect of one `onDrag` call, mirroring the source's early
returns: nothing happens unless `isDragging`; the
snap-at-first-point-and-not-dismissible guard returns; if the flag is not
yet set and `shouldDrag` refuses, return; if the drawer element is gone,
return; otherwise `isAllowedToDrag := true` (the only write the handler
ever makes to the flag). -/
def onDragFlags (e : MoveEvent) (s : GestureFlags) : GestureFlags :=
  if s.isDragging = false then s
  else if e.snapGuard = true then s
  else if s.isAllowedToDrag = false ∧ e.shouldDragResult = false then s
  else if e.hasDrawerRef = false then s
  else { s with isAllowedToDrag := true }

/-- Flag effect of `onRelease`: behind the `isDragging && drawerRef`
guard it clears both flags (lines 735–736, before any of the outcome
logic). -/
def onReleaseFlags (hasDrawerRef : Bool) (s : GestureFlags) : GestureFlags :=
  if ¬ (s.isDragging = true ∧ hasDrawerRef = true) then s
  else { s with isAllowedToDrag := false, isDragging := false }

/-- A run of pointer-move events. -/
def applyMoves : List MoveEvent → GestureFlags → GestureFlags
  | [], s => s
  | e :: es, s => applyMoves es (onDragFlags e s)

theorem onDragFlags_isDragging (e : MoveEvent) (s : GestureFlags) :
    (onDragFlags e s).isDragging = s.isDragging := by
  unfold onDragFlags
  repeat' split
  all_goals rfl

theorem onDragFlags_allowed_mono (e : MoveEvent) (s : GestureFlags)
    (h : s.isAllowedToDrag = true) :
    (onDragFlags e s).isAllowedToDrag = true := by
  unfold onDragFlags
  repeat' split
  all_goals first | exact h | rfl

theorem applyMoves_allowed (es : List MoveEvent) (s : GestureFlags)
    (h : s.isAllowedToDrag = true) :
    (applyMoves es s).isAllowedToDrag = true := by
  induction es generalizing s with
  | nil => exact h
  | cons e es ih => exact ih _ (onDragFlags_allowed_mono e s h)

theorem applyMoves_isDragging (es : List MoveEvent) (s : GestureFlags) :
    (applyMoves es s).isDragging = s.isDragging := by
  induction es generalizing s with
  | nil => rfl
  | cons e es ih =>
    show (applyMoves es (onDragFlags e s)).isDragging = s.isDragging
    rw [ih, onDragFlags_isDragging]

/-- C5: in a gesture where some pointer-move has set `isAllowedToDrag`
(state `s` with both flags true), every further run of pointer-moves
leaves `isAllowedToDrag` true — no handler ever writes `false` to it
mid-gesture — and the `onRelease` at the end of the gesture (drawer still
mounted) resets it to `false`. -/
theorem isAllowedToDrag_sticky_until_release (s : GestureFlags)
    (es : List MoveEvent) (r : Bool)
    (hAllowed : s.isAllowedToDrag = true) (hDragging : s.isDragging = true)
    (hRef : r = true) :
    (applyMoves es s).isAllowedToDrag = true ∧
    (onReleaseFlags r (applyMoves es s)).isAllowedToDrag = false := by
  have hA := applyMoves_allowed es s hAllowed
  have hD : (applyMoves es s).isDragging = true := by
    rw [applyMoves_isDragging]
    exact hDragging
  refine ⟨hA, ?_⟩
  unfold onReleaseFlags
  rw [if_neg (not_not_intro ⟨hD, hRef⟩)]

/-- C5 witness: a concrete two-move tail of a gesture.  The starting state
has both flags set (a previous move already allowed the drag); the first
further move would itself refuse (`shouldDrag` false), the second has the
snap guard up — the flag survives both and the release clears it. -/
theorem isAllowedToDrag_sticky_until_release_witness :
    (applyMoves
        [⟨false, false, true⟩, ⟨true, true, true⟩]
        ⟨true, true⟩).isAllowedToDrag = true ∧
    (onReleaseFlags true
        (applyMoves [⟨false, false, true⟩, ⟨true, true, true⟩]
          ⟨true, true⟩)).isAllowedToDrag = false :=
  isAllowedToDrag_sticky_until_release ⟨true, true⟩
    [⟨false, false, true⟩, ⟨true, true, true⟩] true
    (by decide) (by decide) (by decide)

/-! ## Body position lock (`position-fixed.js` part of the source)

`usePositionFixed` keeps a module-scoped nullable snapshot
`previousBodyPosition` of the body's inline styles.  The state below is
that snapshot plus everything the two functions touch: the body's inline
styles, the window scroll position and the `activeUrl` store.  Style
values are the raw strings the DOM holds; `jsParseInt` models JavaScript
`parseInt(str, 10)` (leading whitespace, optional sign, longest digit
prefix, `NaN` — here `none` — when no digit is found). -/

/-- Inline styles of `document.body` that the lock reads and writes. -/
structure BodyStyle where
  position : String
  top : String
  left : String
  height : String
  right : String
deriving DecidableEq, Repr

/-- The snapshot stored in `previousBodyPosition`. -/
structure PreviousBodyPosition where
  position : String
  top : String
  left : String
  height : String
deriving DecidableEq, Repr

/-- Everything `setPositionFixed` / `restorePositionSetting` observe or
mutate. -/
structure PositionFixedState where
  previousBodyPosition : Option PreviousBodyPosition
  body : BodyStyle
  windowScrollX : ℤ
  windowScrollY : ℤ
  activeUrl : String
deriving DecidableEq, Repr

/-- Longest digit prefix of a character list. -/
def leadingDigits : List Char → List Char
  | [] => []
  | c :: cs => if c.isDigit then c :: leadingDigits cs else []

/-- Value of a digit run. -/
def digitsToNat (ds : List Char) : Nat :=
  ds.foldl (fun acc c => acc * 10 + (c.toNat - 48)) 0

/-- JavaScript `parseInt(s, 10)`: skip leading spaces, optional sign,
read the longest digit prefix; `NaN` (`none`) when no digits follow. -/
def jsParseInt (s : String) : Option ℤ :=
  let cs := s.data.dropWhile (fun c => c = ' ')
  let signAndRest : Bool × List Char :=
    match cs with
    | '-' :: rest => (true, rest)
    | '+' :: rest => (false, rest)
    | _ => (false, cs)
  let ds := leadingDigits signAndRest.2
  if ds.isEmpty then none
  else some ((if signAndRest.1 then -1 else 1) * (digitsToNat ds : ℤ))

/-- Shallow embedding of `setPositionFixed`: guarded by
`previousBodyPosition === null && isOpen`, it snapshots the body's
`position/top/left/height`, then pins the body
(`position: fixed`, `top: -scrollPos px`, `left: -scrollX px`,
`right: 0px`, `height: auto`).  The deferred (300ms + animation-frame)
bottom-bar adjustment runs only inside this same branch and only rewrites
`top`; it is not part of the guard behaviour modelled here. -/
def setPositionFixed (isOpen : Bool) (scrollPos scrollX : ℤ)
    (s : PositionFixedState) : PositionFixedState :=
  if s.previousBodyPosition = none ∧ isOpen = true then
    { s with
      previousBodyPosition := some
        ⟨s.body.position, s.body.top, s.body.left, s.body.height⟩,
      body :=
        { position := "fixed",
          top := toString (-scrollPos) ++ "px",
          left := toString (-scrollX) ++ "px",
          height := "auto",
          right := "0px" } }
  else s

/-- Shallow embedding of `restorePositionSetting`: a no-op when no
snapshot exists; otherwise it recovers `x`/`y` from the pinned
`left`/`top` styles, writes the snapshotted styles back (with
`right: unset`), scrolls the window to `(x, y)` only when the page URL
still equals the one recorded at lock time (on a changed URL it updates
`activeUrl` instead), and clears the snapshot.  The scroll runs inside
`requestAnimationFrame`, after the synchronous part; it only touches
state no other part of the function writes, so it is modelled in
sequence.  `window.scrollTo` coerces a `NaN` coordinate to `0`, hence
`Option.getD 0`. -/
def restorePositionSetting (currentUrl : String) (s : PositionFixedState) :
    PositionFixedState :=
  match s.previousBodyPosition with
  | none => s
  | some prev =>
    let y : Option ℤ := (jsParseInt s.body.top).map (fun n => -n)
    let x : Option ℤ := (jsParseInt s.body.left).map (fun n => -n)
    let body' : BodyStyle :=
      { position := prev.position, top := prev.top, left := prev.left,
        height := prev.height, right := "unset" }
    if s.activeUrl ≠ currentUrl then
      { s with body := body', activeUrl := currentUrl,
               previousBodyPosition := none }
    else
      { s with body := body', windowScrollX := x.getD 0,
               windowScrollY := y.getD 0, previousBodyPosition := none }

/-- C6: the body-style snapshot is taken at most once per lock.
`setPositionFixed` snapshots and pins only when `previousBodyPosition` is
`null` and the drawer is open; while a snapshot is held, a further call
changes nothing at all (neither the snapshot nor the body styles), and a
call while closed also changes nothing. -/
theorem setPositionFixed_snapshot_once (io : Bool) (sp sx : ℤ)
    (s : PositionFixedState) :
    (∀ p, s.previousBodyPosition = some p → setPositionFixed io sp sx s = s) ∧
    (io = false → setPositionFixed io sp sx s = s) ∧
    (s.previousBodyPosition = none → io = true →
      (setPositionFixed io sp sx s).previousBodyPosition =
        some ⟨s.body.position, s.body.top, s.body.left, s.body.height⟩ ∧
      (setPositionFixed io sp sx s).body.position = "fixed") := by
  refine ⟨?_, ?_, ?_⟩
  · intro p hp
    unfold setPositionFixed
    rw [if_neg]
    simp [hp]
  · intro hio
    unfold setPositionFixed
    rw [if_neg]
    simp [hio]
  · intro hnone hio
    unfold setPositionFixed
    rw [if_pos ⟨hnone, hio⟩]
    exact ⟨rfl, rfl⟩

/-- C6/C8 example: a state whose lock is held — the body is pinned 120px
up and the snapshot remembers the pre-lock styles. -/
def lockedBodyExample : PositionFixedState :=
  { previousBodyPosition := some ⟨"static", "", "", ""⟩,
    body := { position := "fixed", top := "-120px", left := "0px",
              height := "auto", right := "0px" },
    windowScrollX := 0, windowScrollY := 0,
    activeUrl := "https://a.example/page" }

/-- C6 example: the same page before any lock is taken. -/
def unlockedBodyExample : PositionFixedState :=
  { previousBodyPosition := none,
    body := { position := "", top := "", left := "", height := "",
              right := "" },
    windowScrollX := 0, windowScrollY := 120,
    activeUrl := "https://a.example/page" }

/-- C6 witness: while `lockedBodyExample` holds the snapshot a second
`setPositionFixed` is the identity; from `unlockedBodyExample` the first
open takes the snapshot of the current body styles. -/
theorem setPositionFixed_snapshot_once_witness :
    setPositionFixed true 120 0 lockedBodyExample = lockedBodyExample ∧
    (setPositionFixed true 120 0 unlockedBodyExample).previousBodyPosition =
      some ⟨"", "", "", ""⟩ :=
  ⟨(setPositionFixed_snapshot_once true 120 0 lockedBodyExample).1
      ⟨"static", "", "", ""⟩ rfl,
   ((setPositionFixed_snapshot_once true 120 0 unlockedBodyExample).2.2
      rfl rfl).1⟩

/-- C7: `restorePositionSetting` is idempotent — the second of two
consecutive calls observes `previousBodyPosition = null` (the first call
cleared it, or it never was set) and is a complete no-op, so two calls
equal one on the whole observable state. -/
theorem restorePositionSetting_idempotent (u : String)
    (s : PositionFixedState) :
    restorePositionSetting u (restorePositionSetting u s) =
      restorePositionSetting u s := by
  cases h : s.previousBodyPosition with
  | none => simp [restorePositionSetting, h]
  | some prev =>
    by_cases hu : s.activeUrl ≠ u <;>
      simp [restorePositionSetting, h, hu]

/-- C8: with a snapshot held, `restorePositionSetting` always restores the
snapshotted body styles (with `right: unset`) and clears the snapshot;
it scrolls the window to the coordinates recovered from the pinned
`left`/`top` styles exactly when the current URL equals the one recorded
at lock time, and leaves the scroll position untouched when the URL has
changed. -/
theorem restorePositionSetting_url_guard (u : String)
    (s : PositionFixedState) (p : PreviousBodyPosition)
    (h : s.previousBodyPosition = some p) :
    (restorePositionSetting u s).previousBodyPosition = none ∧
    (restorePositionSetting u s).body =
      ⟨p.position, p.top, p.left, p.height, "unset"⟩ ∧
    (s.activeUrl = u →
      (restorePositionSetting u s).windowScrollX =
        ((jsParseInt s.body.left).map (fun n => -n)).getD 0 ∧
      (restorePositionSetting u s).windowScrollY =
        ((jsParseInt s.body.top).map (fun n => -n)).getD 0) ∧
    (s.activeUrl ≠ u →
      (restorePositionSetting u s).windowScrollX = s.windowScrollX ∧
      (restorePositionSetting u s).windowScrollY = s.windowScrollY) := by
  by_cases hu : s.activeUrl ≠ u
  · refine ⟨?_, ?_, ?_, ?_⟩ <;>
      simp [restorePositionSetting, h, hu]
  · rw [not_not] at hu
    refine ⟨?_, ?_, ?_, ?_⟩ <;>
      simp [restorePositionSetting, h, hu]

/-- C8 witness: restoring `lockedBodyExample` on the same URL scrolls back
to `y = -parseInt("-120px") = 120` and puts the snapshotted styles back;
on a different URL the scroll position stays and the styles still come
back. -/
theorem restorePositionSetting_url_guard_witness :
    (restorePositionSetting "https://a.example/page"
        lockedBodyExample).windowScrollY = 120 ∧
    (restorePositionSetting "https://a.example/page"
        lockedBodyExample).previousBodyPosition = none ∧
    (restorePositionSetting "https://a.example/other"
        lockedBodyExample).windowScrollY = 0 ∧
    (restorePositionSetting "https://a.example/other"
        lockedBodyExample).body.position = "static" := by
  have hsame := restorePositionSetting_url_guard "https://a.example/page"
    lockedBodyExample ⟨"static", "", "", ""⟩ rfl
  have hother := restorePositionSetting_url_guard "https://a.example/other"
    lockedBodyExample ⟨"static", "", "", ""⟩ rfl
  refine ⟨?_, hsame.1, ?_, ?_⟩
  · rw [(hsame.2.2.1 rfl).2]
    rfl
  · exact ((hother.2.2.2 (by decide)).2).trans rfl
  · rw [hother.2.1]

/-! ## Prop resolution (`defaultProps`, `createVaul`, the `Drawer.Root`
component)

`createVaul` merges `{ ...defaultProps, ...removeUndefined(props) }`: a
field the caller passed as anything other than `undefined` wins,
otherwise the `defaultProps` entry applies.  `Option` models
`undefined`. -/

/-- A snap point descriptor: an absolute number or a string value. -/
inductive SnapPoint where
  | num (q : ℚ)
  | str (s : String)
deriving DecidableEq, Repr

/-- The optional `CreateVaulProps` fields relevant here (`none` is
JavaScript `undefined`). -/
structure CreateVaulProps where
  closeThreshold : Option ℚ
  shouldScaleBackground : Option Bool
  scrollLockTimeout : Option ℚ
  dismissible : Option Bool
  modal : Option Bool
  nested : Option Bool
  snapPoints : Option (List SnapPoint)
  fadeFromIndex : Option ℤ
deriving DecidableEq, Repr

/-- The scalar options after the merge with `defaultProps`. -/
structure ResolvedProps where
  closeThreshold : ℚ
  shouldScaleBackground : Bool
  scrollLockTimeout : ℚ
  dismissible : Bool
  modal : Bool
  nested : Bool
deriving DecidableEq, Repr

/-- `{ ...defaultProps, ...removeUndefined(props) }` on the scalar
option fields.  The `defaultProps` entries are
`closeThreshold: CLOSE_THRESHOLD = 0.25`, `shouldScaleBackground: true`,
`scrollLockTimeout: SCROLL_LOCK_TIMEOUT = 100`, `dismissible: true`,
`modal: true`, `nested: false`. -/
def withDefaults (p : CreateVaulProps) : ResolvedProps :=
  { closeThreshold := p.closeThreshold.getD (1/4),
    shouldScaleBackground := p.shouldScaleBackground.getD true,
    scrollLockTimeout := p.scrollLockTimeout.getD 100,
    dismissible := p.dismissible.getD true,
    modal := p.modal.getD true,
    nested := p.nested.getD false }

/-- A `CreateVaulProps` with every field unspecified. -/
def emptyCreateVaulProps : CreateVaulProps :=
  { closeThreshold := none, shouldScaleBackground := none,
    scrollLockTimeout := none, dismissible := none, modal := none,
    nested := none, snapPoints := none, fadeFromIndex := none }

/-- The destructuring default
`fadeFromIndex: fadeFromIndexProp = snapPointsProp && snapPointsProp.length - 1`
in `createVaul`.  The default expression fires when the merged
`fadeFromIndex` is `undefined`; `undefined && e` evaluates to
`undefined`, while an array (even an empty one) is truthy, so a present
`snapPoints` array yields its `length - 1`. -/
def resolveFadeFromIndex (snapPointsProp : Option (List SnapPoint))
    (fadeFromIndex : Option ℤ) : Option ℤ :=
  match fadeFromIndex with
  | some i => some i
  | none => snapPointsProp.map (fun sps => (sps.length : ℤ) - 1)

/-- C10: when `snapPoints` is provided and `fadeFromIndex` is not,
`createVaul` defaults `fadeFromIndex` to `snapPoints.length - 1`; when
`snapPoints` is absent too, `fadeFromIndex` stays `undefined`. -/
theorem fadeFromIndex_defaults_to_last_index (sps : List SnapPoint) :
    resolveFadeFromIndex (some sps) none = some ((sps.length : ℤ) - 1) ∧
    resolveFadeFromIndex none none = none :=
  ⟨rfl, rfl⟩

/-- The `Drawer.Root` Svelte component declares
`export let shouldScaleBackground: ... = false`, so an unspecified prop
reaches `setCtx`/`createVaul` as the defined value `false`, never as
`undefined`. -/
def rootShouldScaleBackground (prop : Option Bool) : Bool :=
  prop.getD false

/-- The `shouldScaleBackground` value `createVaul` resolves when the
drawer is mounted through `Drawer.Root` with prop `prop`. -/
def effectiveShouldScaleBackground (prop : Option Bool) : Bool :=
  (withDefaults
    { emptyCreateVaulProps with
      shouldScaleBackground :=
        some (rootShouldScaleBackground prop) }).shouldScaleBackground

/-- C9 (code bug): `defaultProps` in `createVaul` sets
`shouldScaleBackground: true`, but the `Drawer.Root` component's own prop
default `false` is always a defined value, so through the component an
unspecified `shouldScaleBackground` resolves to `false`, contradicting
the `defaultProps` entry (every other optional option defaults its
component prop to `undefined` and lets `defaultProps` win). -/
theorem shouldScaleBackground_component_default_overrides :
    effectiveShouldScaleBackground none = false ∧
    (withDefaults emptyCreateVaulProps).shouldScaleBackground = true :=
  ⟨rfl, rfl⟩

end Vaul
